import Mathlib

/-!
Verification of the BOSH deployment-manifest parsing subsystem
(`deployment/manifest/parser.go`) against its natural-language
specification.

The embedding translates the Go source shallowly:
* Go `(value, error)` multi-returns become `α × Option Err` pairs
  (the Go code returns both a value and an error; the error slot is
  `none` exactly when the Go `err` is `nil`);
* fallible helpers whose non-error return is discarded on failure are
  embedded as `Except Err α`;
* Go slices become `List`; where the source distinguishes a `nil` slice
  or map from a built one (`rawJob.Templates != nil` checks), the field
  is an `Option (List _)` with `none` standing for Go `nil`;
* Go `int` becomes `Int`, Go `string` becomes `String`.

Components of this repository that the parser calls but whose sources
are not available (the typed `Manifest` family, `NewWatchTime`, and
`biproperty.BuildMap`) are modelled from the specification; each such
definition carries a doc comment saying so.
-/

namespace BoshManifest

/-- Errors are modelled structurally: a root message, or a wrapping of an
inner error with a context string, mirroring `bosherr.WrapError` /
`bosherr.WrapErrorf`.  The formatted dump of the raw value (`%#v`) that the
Go code appends to some context strings is elided: no property under
verification depends on it. -/
inductive Err where
  | msg (s : String) : Err
  | wrap (ctx : String) (inner : Err) : Err
deriving Repr, DecidableEq

/-- Modelled from the spec (§3 Property Tree): the canonical recursive
property value — scalar (string / integer / float / bool / null), ordered
sequence, or string-keyed mapping with insertion order preserved (the
mapping is an association list).  This is the repository type
`biproperty.Property` / `biproperty.Map`, whose source is not available. -/
inductive Property where
  | str (s : String) : Property
  | int (n : Int) : Property
  | float (f : Float) : Property
  | bool (b : Bool) : Property
  | null : Property
  | list (elems : List Property) : Property
  | map (entries : List (String × Property)) : Property
deriving Repr

/-- Ordered string-keyed property mapping (`biproperty.Map`). -/
abbrev PropMap := List (String × Property)

/-- Dynamic value as produced by the YAML decoder into
`map[interface\x7b\x7d]interface\x7b\x7d` fields: heterogeneous scalars,
sequences, mappings whose keys are themselves dynamic values, and a
catch-all `other` for any unsupported runtime type (carrying that type
name). -/
inductive DynValue where
  | str (s : String) : DynValue
  | int (n : Int) : DynValue
  | float (f : Float) : DynValue
  | bool (b : Bool) : DynValue
  | null : DynValue
  | seq (elems : List DynValue) : DynValue
  | map (entries : List (DynValue × DynValue)) : DynValue
  | other (typeName : String) : DynValue
deriving Repr

/-- Dynamic mapping — the shape of a raw `cloud_properties` / `env` /
`properties` block. -/
abbrev DynMap := List (DynValue × DynValue)

/-- Runtime type name of a dynamic value, used in error messages. -/
def DynValue.typeName : DynValue → String
  | .str _ => ("string")
  | .int _ => ("int")
  | .float _ => ("float64")
  | .bool _ => ("bool")
  | .null => ("nil")
  | .seq _ => ("slice")
  | .map _ => ("map")
  | .other t => t

/-- Modelled from the spec (§4.3): a mapping key must be representable as a
string; otherwise the build fails with an unsupported-key-type error naming
the runtime type. -/
def keyString : DynValue → Except Err String
  | .str s => .ok s
  | v => .error (.msg ("Map contains unsupported key type: " ++ v.typeName))

mutual

/-- Modelled from the spec (§4.3 Property Tree Builder): recursive descent
over the runtime shape of a dynamic value.  Scalars are copied as-is,
sequences are built elementwise in order, mappings are built entrywise with
string keys, and any other runtime shape fails with an
unsupported-value-type error. -/
def build : DynValue → Except Err Property
  | .str s => .ok (.str s)
  | .int n => .ok (.int n)
  | .float f => .ok (.float f)
  | .bool b => .ok (.bool b)
  | .null => .ok .null
  | .seq elems =>
    match buildList elems with
    | .error e => .error e
    | .ok ps => .ok (.list ps)
  | .map entries =>
    match buildPairs [] entries with
    | .error e => .error e
    | .ok m => .ok (.map m)
  | .other t => .error (.msg ("Map contains unsupported value type: " ++ t))

/-- Modelled from the spec (§4.3): elementwise build of a dynamic sequence,
preserving order; an empty sequence yields an empty sequence. -/
def buildList : List DynValue → Except Err (List Property)
  | [] => .ok []
  | v :: rest =>
    match build v with
    | .error e => .error e
    | .ok p =>
      match buildList rest with
      | .error e => .error e
      | .ok ps => .ok (p :: ps)

/-- Modelled from the spec (§4.3): entrywise build of a dynamic mapping.
Each key must stringify (`keyString`); a key collision with an
already-built key is an error rather than a silent merge; values are built
recursively; original key order is preserved. -/
def buildPairs (seen : List String) : List (DynValue × DynValue) → Except Err (List (String × Property))
  | [] => .ok []
  | (k, v) :: rest =>
    match keyString k with
    | .error e => .error e
    | .ok ks =>
      if seen.contains ks then
        .error (.msg ("Map contains duplicate key: " ++ ks))
      else
        match build v with
        | .error e => .error e
        | .ok p =>
          match buildPairs (ks :: seen) rest with
          | .error e => .error e
          | .ok ps => .ok ((ks, p) :: ps)

end

/-- Modelled from the spec (§4.3): `biproperty.BuildMap`, the entry point
used by the parser on raw property blocks.  A `nil` input (Go nil map,
here `none`) produces an empty mapping, not an error. -/
def BuildMap : Option DynMap → Except Err PropMap
  | none => .ok []
  | some entries => buildPairs [] entries

/-! ## Raw (YAML-decoded) manifest structures, from `parser.go` lines 23-80 -/

/-- Raw `update` section: `UpdateWatchTime *string` — `none` models the Go
nil pointer (no `update_watch_time` supplied). -/
structure UpdateSpec where
  UpdateWatchTime : Option String
deriving Repr

/-- Raw network entry (`parser.go` type `network`). -/
structure network where
  Name : String
  type : String
  CloudProperties : Option DynMap
  IP : String
  Netmask : String
  Gateway : String
  DNS : List String
deriving Repr

/-- Raw resource-pool entry (`parser.go` type `resourcePool`). -/
structure resourcePool where
  Name : String
  Network : String
  CloudProperties : Option DynMap
  Env : Option DynMap
deriving Repr

/-- Raw disk-pool entry (`parser.go` type `diskPool`). -/
structure diskPool where
  Name : String
  DiskSize : Int
  CloudProperties : Option DynMap
deriving Repr

/-- Raw template reference (`parser.go` type `releaseJobRef`). -/
structure releaseJobRef where
  Name : String
  Release : String
deriving Repr

/-- Raw per-job network attachment (`parser.go` type `jobNetwork`);
`Default` is `Option` because the source checks it against nil. -/
structure jobNetwork where
  Name : String
  Default : Option (List String)
  StaticIPs : List String
deriving Repr

/-- Raw job entry (`parser.go` type `job`); `Templates`, `Networks` and
`Properties` are `Option` because the source checks each against nil
before converting it. -/
structure job where
  Name : String
  Instances : Int
  Lifecycle : String
  Templates : Option (List releaseJobRef)
  Networks : Option (List jobNetwork)
  PersistentDisk : Int
  PersistentDiskPool : String
  Properties : Option DynMap
deriving Repr

/-- Raw decoded manifest (`parser.go` type `manifest`). -/
structure manifest where
  Name : String
  Update : UpdateSpec
  Networks : List network
  ResourcePools : List resourcePool
  DiskPools : List diskPool
  Jobs : List job
  Properties : Option DynMap
deriving Repr

/-! ## Typed deployment model

The typed `Manifest` family lives elsewhere in the repository; its field
shapes are determined by the constructions in `parser.go` and by spec §3. -/

/-- Modelled from the spec (§3 Update Policy / §4.4): resolved watch-time
interval in milliseconds.  The spec requires both bounds to be
non-negative integers, so the fields are `Nat`. -/
structure WatchTime where
  Start : Nat
  End : Nat
deriving Repr, DecidableEq

/-- Modelled from the spec (§3): the Update policy holds a resolved
watch-time interval. -/
structure Update where
  UpdateWatchTime : WatchTime
deriving Repr, DecidableEq

/-- Typed network (spec §3); `type` is the open network-kind tag
(`NetworkType` in Go, a string). -/
structure Network where
  Name : String
  type : String
  IP : String
  Netmask : String
  Gateway : String
  DNS : List String
  CloudProperties : PropMap
deriving Repr

/-- Typed resource pool (spec §3). -/
structure ResourcePool where
  Name : String
  Network : String
  CloudProperties : PropMap
  Env : PropMap
deriving Repr

/-- Typed disk pool (spec §3). -/
structure DiskPool where
  Name : String
  DiskSize : Int
  CloudProperties : PropMap
deriving Repr

/-- Typed template reference (spec §3). -/
structure ReleaseJobRef where
  Name : String
  Release : String
deriving Repr

/-- Typed per-job network attachment (spec §3); `Default` is `none` when
the raw attachment had a nil default-routing list (`NetworkDefault` in Go
is a string tag). -/
structure JobNetwork where
  Name : String
  Default : Option (List String)
  StaticIPs : List String
deriving Repr

/-- Typed job group (spec §3); `Lifecycle` is the open `JobLifecycle`
string tag.  `Templates`, `Networks` and `Properties` are `Option` so the
embedding preserves the Go distinction between a nil field (raw section
absent, conversion skipped) and a built one. -/
structure Job where
  Name : String
  Instances : Int
  Lifecycle : String
  Templates : Option (List ReleaseJobRef)
  Networks : Option (List JobNetwork)
  PersistentDisk : Int
  PersistentDiskPool : String
  Properties : Option PropMap
deriving Repr

/-- Typed deployment model (spec §3). -/
structure Manifest where
  Name : String
  Update : Update
  Networks : List Network
  ResourcePools : List ResourcePool
  DiskPools : List DiskPool
  Jobs : List Job
  Properties : PropMap
deriving Repr

/-- Go zero value `Manifest\x7b\x7d`, returned alongside every error. -/
def emptyManifest : Manifest :=
  { Name := ("")
    Update := { UpdateWatchTime := { Start := 0, End := 0 } }
    Networks := []
    ResourcePools := []
    DiskPools := []
    Jobs := []
    Properties := [] }

/-- Baked-in defaults (`parser.go` lines 82-89): the default Update policy
interval is 0 - 300000 ms; every other field is the zero value. -/
def boshDeploymentDefaults : Manifest :=
  { emptyManifest with
    Update := { UpdateWatchTime := { Start := 0, End := 300000 } } }

/-- Go zero value of a typed `Network`, the content of slice slots the
failing Go loop never assigned. -/
def emptyNetwork : Network :=
  { Name := (""), type := (""), IP := (""), Netmask := (""), Gateway := ("")
    DNS := [], CloudProperties := [] }

/-- Go zero value of a typed `ResourcePool`. -/
def emptyResourcePool : ResourcePool :=
  { Name := (""), Network := (""), CloudProperties := [], Env := [] }

/-- Go zero value of a typed `DiskPool`. -/
def emptyDiskPool : DiskPool :=
  { Name := (""), DiskSize := 0, CloudProperties := [] }

/-- Go zero value of a typed `Job`. -/
def emptyJob : Job :=
  { Name := (""), Instances := 0, Lifecycle := ("")
    Templates := none, Networks := none
    PersistentDisk := 0, PersistentDiskPool := ("")
    Properties := none }

/-! ## Watch-time parser (spec §4.4; repository `NewWatchTime`, source not
available under `src/`) -/

/-- Splits a character list at every delimiter `-`, keeping empty pieces,
with `acc` the (reversed) characters of the current piece. -/
def splitDashAux (acc : List Char) : List Char → List (List Char)
  | [] => [acc.reverse]
  | c :: rest =>
    if c = '-' then acc.reverse :: splitDashAux [] rest
    else splitDashAux (c :: acc) rest

/-- Pieces of the expression between delimiters. -/
def splitDash (s : String) : List (List Char) :=
  splitDashAux [] s.toList

/-- Accumulator loop of `parseNonNegInt`. -/
def parseNonNegIntAux (acc : Nat) : List Char → Option Nat
  | [] => some acc
  | c :: rest =>
    if c.isDigit then parseNonNegIntAux (acc * 10 + (c.toNat - 48)) rest
    else none

/-- Modelled from the spec (§4.4): a bound must parse as a non-negative
integer literal (all decimal digits, non-empty). -/
def parseNonNegInt : List Char → Option Nat
  | [] => none
  | cs => parseNonNegIntAux 0 cs

/-- Modelled from the spec (§4.4 Watch Time Parser): the expression is
either a single integer literal, interpreted as the end with start fixed
at 0, or a start-end pair of integer literals separated by the delimiter.
Malformed numeric text fails with a malformed-watch-time error; a pair
with start greater than end fails with an invalid-interval error. -/
def NewWatchTime (expr : String) : Except Err WatchTime :=
  match splitDash expr with
  | [endChars] =>
    match parseNonNegInt endChars with
    | some e => .ok { Start := 0, End := e }
    | none => .error (.msg ("Invalid watch time: " ++ expr))
  | [startChars, endChars] =>
    match parseNonNegInt startChars, parseNonNegInt endChars with
    | some s, some e =>
      if s ≤ e then .ok { Start := s, End := e }
      else .error (.msg ("Invalid watch time range: " ++ expr))
    | _, _ => .error (.msg ("Invalid watch time: " ++ expr))
  | _ => .error (.msg ("Invalid watch time: " ++ expr))

/-! ## Section parsers (`parser.go` lines 168-293)

Each Go section parser is a for-loop of the same shape over a
preallocated slice `make([]T, n)`: entry `i` of the output is built from
entry `i` of the input, and the first per-entry failure returns the slice
as filled so far (later slots still the zero value) together with the
error.  `runSection` is that loop; the per-entry bodies follow the
source. -/

/-- Per-entry body of `parseNetworkManifests` (`parser.go` lines 227-243):
scalar fields copied verbatim, `cloud_properties` normalized through
`BuildMap`; a failure is wrapped with the network name. -/
def parseOneNetwork (raw : network) : Except Err Network :=
  match BuildMap raw.CloudProperties with
  | .error e => .error (.wrap ("Parsing network " ++ raw.Name ++ " cloud_properties") e)
  | .ok cp =>
    .ok { Name := raw.Name, type := raw.type, IP := raw.IP
          Netmask := raw.Netmask, Gateway := raw.Gateway, DNS := raw.DNS
          CloudProperties := cp }

/-- Per-entry body of `parseResourcePoolManifests` (`parser.go` lines
251-269): scalar fields copied verbatim, `cloud_properties` then `env`
normalized through `BuildMap`; a failure is wrapped with the
resource-pool name and the failing block label. -/
def parseOneResourcePool (raw : resourcePool) : Except Err ResourcePool :=
  match BuildMap raw.CloudProperties with
  | .error e => .error (.wrap ("Parsing resource_pool " ++ raw.Name ++ " cloud_properties") e)
  | .ok cp =>
    match BuildMap raw.Env with
    | .error e => .error (.wrap ("Parsing resource_pool " ++ raw.Name ++ " env") e)
    | .ok env =>
      .ok { Name := raw.Name, Network := raw.Network
            CloudProperties := cp, Env := env }

/-- Per-entry body of `parseDiskPoolManifests` (`parser.go` lines
277-289): scalar fields copied verbatim, `cloud_properties` normalized
through `BuildMap`; a failure is wrapped with the disk-pool name. -/
def parseOneDiskPool (raw : diskPool) : Except Err DiskPool :=
  match BuildMap raw.CloudProperties with
  | .error e => .error (.wrap ("Parsing disk_pool " ++ raw.Name ++ " cloud_properties") e)
  | .ok cp =>
    .ok { Name := raw.Name, DiskSize := raw.DiskSize, CloudProperties := cp }

/-- Per-entry conversion of a raw job network attachment (`parser.go`
lines 193-206): name and static IPs copied verbatim; the default-routing
list is converted elementwise only when non-nil (the element conversion
`NetworkDefault(rawDefault)` is a string-type cast, the identity here). -/
def parseOneJobNetwork (raw : jobNetwork) : JobNetwork :=
  { Name := raw.Name
    StaticIPs := raw.StaticIPs
    Default := raw.Default.map (fun ds => ds.map (fun d => d)) }

/-- Per-entry body of `parseJobManifests` (`parser.go` lines 170-219):
scalar fields copied verbatim; templates, networks and properties are
each converted only when the raw field is non-nil (otherwise the typed
field keeps the zero value `none`); only the properties conversion can
fail, wrapped with the job name. -/
def parseOneJob (raw : job) : Except Err Job :=
  let converted : Job :=
    { Name := raw.Name
      Instances := raw.Instances
      Lifecycle := raw.Lifecycle
      Templates :=
        raw.Templates.map (fun ts => ts.map (fun t => { Name := t.Name, Release := t.Release }))
      Networks := raw.Networks.map (fun ns => ns.map parseOneJobNetwork)
      PersistentDisk := raw.PersistentDisk
      PersistentDiskPool := raw.PersistentDiskPool
      Properties := none }
  match raw.Properties with
  | none => .ok converted
  | some props =>
    match BuildMap (some props) with
    | .error e => .error (.wrap ("Parsing job " ++ raw.Name ++ " properties") e)
    | .ok pm => .ok { converted with Properties := some pm }

/-- The common for-loop shape of the four Go section parsers over
`make([]T, n)`: on success the output list pairs entry `i` with input
entry `i`; on the first per-entry failure the loop stops, later slots
keep the zero value `default`, and the error is returned together with
the slice. -/
def runSection (parseOne : α → Except Err β) (default : β) :
    List α → List β × Option Err
  | [] => ([], none)
  | x :: rest =>
    match parseOne x with
    | .error e => (default :: List.replicate rest.length default, some e)
    | .ok y =>
      let (ys, e) := runSection parseOne default rest
      (y :: ys, e)

/-- Network section parser, `parseNetworkManifests` (`parser.go` lines 225-247). -/
def parseNetworkManifests (raws : List network) : List Network × Option Err :=
  runSection parseOneNetwork emptyNetwork raws

/-- Resource-pool section parser, `parseResourcePoolManifests` (`parser.go` lines 249-273). -/
def parseResourcePoolManifests (raws : List resourcePool) :
    List ResourcePool × Option Err :=
  runSection parseOneResourcePool emptyResourcePool raws

/-- Disk-pool section parser, `parseDiskPoolManifests` (`parser.go` lines 275-293). -/
def parseDiskPoolManifests (raws : List diskPool) : List DiskPool × Option Err :=
  runSection parseOneDiskPool emptyDiskPool raws

/-- Job section parser, `parseJobManifests` (`parser.go` lines 168-223). -/
def parseJobManifests (raws : List job) : List Job × Option Err :=
  runSection parseOneJob emptyJob raws

/-! ## Orchestrator (`parser.go` lines 99-166) -/

/-- Orchestrator body, `parseDeploymentManifest` (`parser.go` lines 120-166): starts from the
baked-in defaults, copies the name verbatim, runs the section parsers in
the fixed order networks, resource pools, disk pools, jobs, global
properties, then overrides the Update policy only when the document
supplied a watch-time expression.  Every failure returns the zero
`Manifest` together with the wrapped error. -/
def parseDeploymentManifest (dep : manifest) : Manifest × Option Err :=
  let deployment := { boshDeploymentDefaults with Name := dep.Name }
  match parseNetworkManifests dep.Networks with
  | (_, some e) => (emptyManifest, some (.wrap ("Parsing networks") e))
  | (networks, none) =>
  match parseResourcePoolManifests dep.ResourcePools with
  | (_, some e) => (emptyManifest, some (.wrap ("Parsing resource_pools") e))
  | (resourcePools, none) =>
  match parseDiskPoolManifests dep.DiskPools with
  | (_, some e) => (emptyManifest, some (.wrap ("Parsing disk_pools") e))
  | (diskPools, none) =>
  match parseJobManifests dep.Jobs with
  | (_, some e) => (emptyManifest, some (.wrap ("Parsing jobs") e))
  | (jobs, none) =>
  match BuildMap dep.Properties with
  | .error e => (emptyManifest, some (.wrap ("Parsing global manifest properties") e))
  | .ok properties =>
  let deployment :=
    { deployment with
      Networks := networks, ResourcePools := resourcePools
      DiskPools := diskPools, Jobs := jobs, Properties := properties }
  match dep.Update.UpdateWatchTime with
  | none => (deployment, none)
  | some expr =>
    match NewWatchTime expr with
    | .error e => (emptyManifest, some (.wrap ("Parsing update watch time") e))
    | .ok wt => ({ deployment with Update := { UpdateWatchTime := wt } }, none)

/-- Top-level `Parse` (`parser.go` lines 99-118).  The two external collaborators —
the file system read and the YAML unmarshalling — are parameters: the
read result is given as an `Except`, and `unmarshal` stands for
`candiedyaml.Unmarshal` on the read contents. -/
def Parse (readResult : Except Err String)
    (unmarshal : String → Except Err manifest) : Manifest × Option Err :=
  match readResult with
  | .error e => (emptyManifest, some (.wrap ("Reading file") e))
  | .ok contents =>
    match unmarshal contents with
    | .error e => (emptyManifest, some (.wrap ("Unmarshalling BOSH deployment manifest") e))
    | .ok combo =>
      match parseDeploymentManifest combo with
      | (_, some e) => (emptyManifest, some (.wrap ("Unmarshalling BOSH deployment manifest") e))
      | (m, none) => (m, none)

/-! ## Helper functions and lemmas -/

/-- Error component of an `Except` result (`some` exactly on failure). -/
def errOpt : Except Err β → Option Err
  | .error e => some e
  | .ok _ => none

/-- First error produced by `f` along a list, in order. -/
def firstErr (f : α → Option Err) : List α → Option Err
  | [] => none
  | x :: rest =>
    match f x with
    | some e => some e
    | none => firstErr f rest

theorem firstErr_eq_none_iff (f : α → Option Err) (xs : List α) :
    firstErr f xs = none ↔ ∀ x ∈ xs, f x = none := by
  induction xs with
  | nil => simp [firstErr]
  | cons x rest ih =>
    cases h : f x with
    | some e => simp [firstErr, h]
    | none => simp [firstErr, h, ih]

theorem runSection_length (p : α → Except Err β) (d : β) (xs : List α) :
    (runSection p d xs).fst.length = xs.length := by
  induction xs with
  | nil => rfl
  | cons x rest ih =>
    cases h : p x with
    | error e => simp [runSection, h]
    | ok y =>
      rcases hr : runSection p d rest with ⟨ys, e⟩
      rw [hr] at ih
      simp [runSection, h, hr]
      exact ih

theorem runSection_snd (p : α → Except Err β) (d : β) (xs : List α) :
    (runSection p d xs).snd = firstErr (fun x => errOpt (p x)) xs := by
  induction xs with
  | nil => rfl
  | cons x rest ih =>
    cases h : p x with
    | error e => simp [runSection, firstErr, errOpt, h]
    | ok y =>
      rcases hr : runSection p d rest with ⟨ys, e⟩
      rw [hr] at ih
      simp [runSection, firstErr, errOpt, h, hr]
      exact ih

theorem runSection_get? (p : α → Except Err β) (d : β) (xs : List α)
    (hok : (runSection p d xs).snd = none) :
    ∀ (i : Nat) (x : α), xs[i]? = some x →
      ∃ y, p x = .ok y ∧ (runSection p d xs).fst[i]? = some y := by
  induction xs with
  | nil => intro i x hx; simp at hx
  | cons hd rest ih =>
    intro i x hx
    cases h : p hd with
    | error e => rw [runSection, h] at hok; simp at hok
    | ok y =>
      rcases hr : runSection p d rest with ⟨ys, e⟩
      rw [runSection, h, hr] at hok
      simp at hok
      subst hok
      cases i with
      | zero =>
        simp at hx
        subst hx
        exact ⟨y, h, by simp [runSection, h, hr]⟩
      | succ j =>
        simp at hx
        rcases ih (by rw [hr]) j x hx with ⟨y2, hy2, hget⟩
        rw [hr] at hget
        exact ⟨y2, hy2, by simp [runSection, h, hr]; simpa using hget⟩

theorem parseOneNetwork_name (r : network) (y : Network)
    (h : parseOneNetwork r = .ok y) : y.Name = r.Name := by
  unfold parseOneNetwork at h
  cases hb : BuildMap r.CloudProperties with
  | error e => rw [hb] at h; simp at h
  | ok cp => rw [hb] at h; simp at h; rw [← h]

theorem parseOneResourcePool_name (r : resourcePool) (y : ResourcePool)
    (h : parseOneResourcePool r = .ok y) : y.Name = r.Name := by
  unfold parseOneResourcePool at h
  cases hb : BuildMap r.CloudProperties with
  | error e => rw [hb] at h; simp at h
  | ok cp =>
    rw [hb] at h
    cases he : BuildMap r.Env with
    | error e => rw [he] at h; simp at h
    | ok env => rw [he] at h; simp at h; rw [← h]

theorem parseOneDiskPool_name (r : diskPool) (y : DiskPool)
    (h : parseOneDiskPool r = .ok y) : y.Name = r.Name := by
  unfold parseOneDiskPool at h
  cases hb : BuildMap r.CloudProperties with
  | error e => rw [hb] at h; simp at h
  | ok cp => rw [hb] at h; simp at h; rw [← h]

theorem parseOneJob_name (r : job) (y : Job)
    (h : parseOneJob r = .ok y) : y.Name = r.Name := by
  unfold parseOneJob at h
  cases hp : r.Properties with
  | none => rw [hp] at h; simp at h; rw [← h]
  | some props =>
    rw [hp] at h
    cases hb : BuildMap (some props) with
    | error e => simp [hb] at h
    | ok pm => simp [hb] at h; rw [← h]

theorem parseDeploymentManifest_ok (dep : manifest) (d : Manifest)
    (h : parseDeploymentManifest dep = (d, none)) :
    d.Name = dep.Name ∧
    (dep.Update.UpdateWatchTime = none → d.Update = boshDeploymentDefaults.Update) ∧
    (∀ expr, dep.Update.UpdateWatchTime = some expr →
      ∃ wt, NewWatchTime expr = .ok wt ∧ d.Update = { UpdateWatchTime := wt }) := by
  unfold parseDeploymentManifest at h
  rcases h1 : parseNetworkManifests dep.Networks with ⟨ns, e1⟩
  rw [h1] at h
  cases e1 with
  | some e => simp at h
  | none =>
  rcases h2 : parseResourcePoolManifests dep.ResourcePools with ⟨rs, e2⟩
  rw [h2] at h
  cases e2 with
  | some e => simp at h
  | none =>
  rcases h3 : parseDiskPoolManifests dep.DiskPools with ⟨ds, e3⟩
  rw [h3] at h
  cases e3 with
  | some e => simp at h
  | none =>
  rcases h4 : parseJobManifests dep.Jobs with ⟨js, e4⟩
  rw [h4] at h
  cases e4 with
  | some e => simp at h
  | none =>
  cases h5 : BuildMap dep.Properties with
  | error e => rw [h5] at h; simp at h
  | ok props =>
  rw [h5] at h
  cases h6 : dep.Update.UpdateWatchTime with
  | none =>
    rw [h6] at h
    simp at h
    refine ⟨?_, fun _ => ?_, ?_⟩
    · rw [← h]
    · rw [← h]
    · intro expr hexpr; simp at hexpr
  | some expr =>
    rw [h6] at h
    simp at h
    cases h7 : NewWatchTime expr with
    | error e => rw [h7] at h; simp at h
    | ok wt =>
    rw [h7] at h
    simp at h
    refine ⟨?_, ?_, ?_⟩
    · rw [← h]
    · intro hnone; simp at hnone
    · intro expr' hexpr
      simp at hexpr
      subst hexpr
      exact ⟨wt, h7, by rw [← h]⟩

/-! ## Claims -/

/-- C1: for every document that supplies no update watch-time expression
(`UpdateWatchTime` nil), the Update policy of the successfully parsed
model equals the baked-in default interval (start 0, end 300000): the
default applied before any document content stands unchanged. -/
theorem C1_default_update_policy (dep : manifest) (d : Manifest)
    (habs : dep.Update.UpdateWatchTime = none)
    (hok : parseDeploymentManifest dep = (d, none)) :
    d.Update = boshDeploymentDefaults.Update ∧
    d.Update.UpdateWatchTime = { Start := 0, End := 300000 } := by
  have h := (parseDeploymentManifest_ok dep d hok).2.1 habs
  exact ⟨h, by rw [h]; rfl⟩

/-- Concrete document with no update section, for the C1 witness. -/
def depNoUpdate : manifest :=
  { Name := ("simple"), Update := { UpdateWatchTime := none }
    Networks := [], ResourcePools := [], DiskPools := [], Jobs := []
    Properties := none }

theorem C1_default_update_policy_witness :
    depNoUpdate.Update.UpdateWatchTime = none ∧
    (parseDeploymentManifest depNoUpdate).fst.Update.UpdateWatchTime =
      { Start := 0, End := 300000 } :=
  ⟨rfl,
    (C1_default_update_policy depNoUpdate
      (parseDeploymentManifest depNoUpdate).fst rfl rfl).2⟩

/-- C2: a document supplying the watch-time expression 1000-2000 parses
to the Update interval (1000, 2000); a document supplying 5000 alone
parses to (0, 5000) — a single integer literal is the end, with start
fixed at 0. -/
theorem C2_explicit_watch_time (dep1 dep2 : manifest) (d1 d2 : Manifest)
    (hw1 : dep1.Update.UpdateWatchTime = some ("1000-2000"))
    (hok1 : parseDeploymentManifest dep1 = (d1, none))
    (hw2 : dep2.Update.UpdateWatchTime = some ("5000"))
    (hok2 : parseDeploymentManifest dep2 = (d2, none)) :
    d1.Update.UpdateWatchTime = { Start := 1000, End := 2000 } ∧
    d2.Update.UpdateWatchTime = { Start := 0, End := 5000 } := by
  rcases (parseDeploymentManifest_ok dep1 d1 hok1).2.2 _ hw1 with ⟨wt1, hn1, hu1⟩
  rcases (parseDeploymentManifest_ok dep2 d2 hok2).2.2 _ hw2 with ⟨wt2, hn2, hu2⟩
  have e1 : NewWatchTime ("1000-2000") =
      Except.ok ({ Start := 1000, End := 2000 } : WatchTime) := rfl
  have e2 : NewWatchTime ("5000") =
      Except.ok ({ Start := 0, End := 5000 } : WatchTime) := rfl
  rw [e1] at hn1
  rw [e2] at hn2
  injection hn1 with hn1
  injection hn2 with hn2
  rw [hu1, hu2, ← hn1, ← hn2]
  exact ⟨rfl, rfl⟩

/-- Concrete document supplying the pair watch-time expression. -/
def depWatchPair : manifest :=
  { depNoUpdate with Update := { UpdateWatchTime := some ("1000-2000") } }

/-- Concrete document supplying the single-literal watch-time expression. -/
def depWatchSingle : manifest :=
  { depNoUpdate with Update := { UpdateWatchTime := some ("5000") } }

theorem C2_explicit_watch_time_witness :
    (parseDeploymentManifest depWatchPair).fst.Update.UpdateWatchTime =
      { Start := 1000, End := 2000 } ∧
    (parseDeploymentManifest depWatchSingle).fst.Update.UpdateWatchTime =
      { Start := 0, End := 5000 } :=
  C2_explicit_watch_time depWatchPair depWatchSingle
    (parseDeploymentManifest depWatchPair).fst
    (parseDeploymentManifest depWatchSingle).fst
    rfl rfl rfl rfl

/-- Concrete document whose name field is empty (absent in YAML decodes
to the empty string). -/
def depEmptyName : manifest :=
  { Name := (""), Update := { UpdateWatchTime := none }
    Networks := [], ResourcePools := [], DiskPools := [], Jobs := []
    Properties := none }

/-- C6 counterexample: a document with an empty name parses successfully
and the resulting model name is the empty string — the parser enforces no
non-emptiness on the name. -/
theorem C6_counterexample_empty_name_parses :
    (parseDeploymentManifest depEmptyName).snd = none ∧
    (parseDeploymentManifest depEmptyName).fst.Name = ("") :=
  ⟨rfl, rfl⟩

/-- C6 (amended): the parsed model name is copied verbatim from the
document name field; it may be empty, since the parser performs no
non-emptiness validation. -/
theorem C6_amended_name_copied_verbatim (dep : manifest) (d : Manifest)
    (hok : parseDeploymentManifest dep = (d, none)) :
    d.Name = dep.Name :=
  (parseDeploymentManifest_ok dep d hok).1

theorem C6_amended_name_copied_verbatim_witness :
    (parseDeploymentManifest depNoUpdate).fst.Name = depNoUpdate.Name :=
  C6_amended_name_copied_verbatim depNoUpdate
    (parseDeploymentManifest depNoUpdate).fst rfl

/-- Concrete raw job entry whose optional sections are all absent; its
lifecycle tag is absent (the YAML zero value, the empty string). -/
def jobBare : job :=
  { Name := ("web"), Instances := 1, Lifecycle := ("")
    Templates := none, Networks := none
    PersistentDisk := 0, PersistentDiskPool := ("")
    Properties := none }

/-- C7 counterexample: a job whose lifecycle tag is absent parses
successfully to a Job whose lifecycle is the empty string — no default is
applied by the parser. -/
theorem C7_counterexample_lifecycle_not_defaulted :
    (parseJobManifests [jobBare]).snd = none ∧
    (parseJobManifests [jobBare]).fst.map Job.Lifecycle = [("")] :=
  ⟨rfl, rfl⟩

/-- C7 (amended): the lifecycle tag is copied verbatim from the raw
entry; a job with an absent lifecycle yields the empty string, not a
defaulted non-empty tag. -/
theorem C7_amended_lifecycle_copied_verbatim (r : job) (y : Job)
    (h : parseOneJob r = .ok y) : y.Lifecycle = r.Lifecycle := by
  unfold parseOneJob at h
  cases hp : r.Properties with
  | none => rw [hp] at h; simp at h; rw [← h]
  | some props =>
    rw [hp] at h
    cases hb : BuildMap (some props) with
    | error e => simp [hb] at h
    | ok pm => simp [hb] at h; rw [← h]

theorem C7_amended_lifecycle_copied_verbatim_witness :
    (Job.mk ("web") 1 ("") none none 0 ("") none).Lifecycle = jobBare.Lifecycle :=
  C7_amended_lifecycle_copied_verbatim jobBare
    (Job.mk ("web") 1 ("") none none 0 ("") none) rfl

/-- Concrete raw job entry with a negative instance count. -/
def jobNegInstances : job :=
  { jobBare with Instances := -2 }

/-- C8 counterexample: a job entry with a negative instance count parses
successfully and the resulting Job carries that negative count — no
non-negativity is enforced. -/
theorem C8_counterexample_negative_instances :
    (parseJobManifests [jobNegInstances]).snd = none ∧
    (parseJobManifests [jobNegInstances]).fst.map Job.Instances = [-2] ∧
    (-2 : Int) < 0 :=
  ⟨rfl, rfl, by decide⟩

/-- C8 (amended): the instance count is copied verbatim from the raw
entry as a (possibly negative) integer; the parser performs no
non-negativity validation. -/
theorem C8_amended_instances_copied_verbatim (r : job) (y : Job)
    (h : parseOneJob r = .ok y) : y.Instances = r.Instances := by
  unfold parseOneJob at h
  cases hp : r.Properties with
  | none => rw [hp] at h; simp at h; rw [← h]
  | some props =>
    rw [hp] at h
    cases hb : BuildMap (some props) with
    | error e => simp [hb] at h
    | ok pm => simp [hb] at h; rw [← h]

theorem C8_amended_instances_copied_verbatim_witness :
    (Job.mk ("web") (-2) ("") none none 0 ("") none).Instances =
      jobNegInstances.Instances :=
  C8_amended_instances_copied_verbatim jobNegInstances
    (Job.mk ("web") (-2) ("") none none 0 ("") none) rfl

/-- C9: a job entry whose properties block is absent (nil) parses without
invoking the property tree builder: parsing cannot fail on it, and the
resulting Job keeps the nil (`none`) property tree rather than a built
empty mapping; likewise absent templates and networks sub-sequences stay
nil. -/
theorem C9_absent_blocks_stay_nil (r : job) (hprops : r.Properties = none) :
    ∃ y, parseOneJob r = .ok y ∧ y.Properties = none ∧
      (r.Templates = none → y.Templates = none) ∧
      (r.Networks = none → y.Networks = none) := by
  refine ⟨{ Name := r.Name, Instances := r.Instances, Lifecycle := r.Lifecycle
            Templates := r.Templates.map
              (fun ts => ts.map (fun t => { Name := t.Name, Release := t.Release }))
            Networks := r.Networks.map (fun ns => ns.map parseOneJobNetwork)
            PersistentDisk := r.PersistentDisk
            PersistentDiskPool := r.PersistentDiskPool
            Properties := none }, ?_, rfl, ?_, ?_⟩
  · unfold parseOneJob
    rw [hprops]
  · intro ht; simp [ht]
  · intro hn; simp [hn]

theorem C9_absent_blocks_stay_nil_witness :
    jobBare.Properties = none ∧
    ∃ y, parseOneJob jobBare = .ok y ∧ y.Properties = none ∧
      (jobBare.Templates = none → y.Templates = none) ∧
      (jobBare.Networks = none → y.Networks = none) :=
  ⟨rfl, C9_absent_blocks_stay_nil jobBare rfl⟩

/-- C3: each of the four section parsers always produces an output of
exactly the input length, and on success the entry at index `i` of the
output is the converted entry at index `i` of the input, carrying the
same name — declaration order and index correspondence are preserved. -/
theorem C3_sections_preserve_length_and_order
    (ns : List network) (rps : List resourcePool)
    (dps : List diskPool) (js : List job) :
    ((parseNetworkManifests ns).fst.length = ns.length ∧
      ((parseNetworkManifests ns).snd = none →
        ∀ (i : Nat) (x : network), ns[i]? = some x →
          ∃ y, parseOneNetwork x = .ok y ∧
            (parseNetworkManifests ns).fst[i]? = some y ∧ y.Name = x.Name)) ∧
    ((parseResourcePoolManifests rps).fst.length = rps.length ∧
      ((parseResourcePoolManifests rps).snd = none →
        ∀ (i : Nat) (x : resourcePool), rps[i]? = some x →
          ∃ y, parseOneResourcePool x = .ok y ∧
            (parseResourcePoolManifests rps).fst[i]? = some y ∧ y.Name = x.Name)) ∧
    ((parseDiskPoolManifests dps).fst.length = dps.length ∧
      ((parseDiskPoolManifests dps).snd = none →
        ∀ (i : Nat) (x : diskPool), dps[i]? = some x →
          ∃ y, parseOneDiskPool x = .ok y ∧
            (parseDiskPoolManifests dps).fst[i]? = some y ∧ y.Name = x.Name)) ∧
    ((parseJobManifests js).fst.length = js.length ∧
      ((parseJobManifests js).snd = none →
        ∀ (i : Nat) (x : job), js[i]? = some x →
          ∃ y, parseOneJob x = .ok y ∧
            (parseJobManifests js).fst[i]? = some y ∧ y.Name = x.Name)) := by
  simp only [parseNetworkManifests, parseResourcePoolManifests,
    parseDiskPoolManifests, parseJobManifests]
  refine ⟨⟨runSection_length _ _ _, ?_⟩, ⟨runSection_length _ _ _, ?_⟩,
    ⟨runSection_length _ _ _, ?_⟩, ⟨runSection_length _ _ _, ?_⟩⟩
  · intro hok i x hx
    rcases runSection_get? _ _ _ hok i x hx with ⟨y, hy, hget⟩
    exact ⟨y, hy, hget, parseOneNetwork_name _ _ hy⟩
  · intro hok i x hx
    rcases runSection_get? _ _ _ hok i x hx with ⟨y, hy, hget⟩
    exact ⟨y, hy, hget, parseOneResourcePool_name _ _ hy⟩
  · intro hok i x hx
    rcases runSection_get? _ _ _ hok i x hx with ⟨y, hy, hget⟩
    exact ⟨y, hy, hget, parseOneDiskPool_name _ _ hy⟩
  · intro hok i x hx
    rcases runSection_get? _ _ _ hok i x hx with ⟨y, hy, hget⟩
    exact ⟨y, hy, hget, parseOneJob_name _ _ hy⟩

/-- Concrete raw network entry for the C3 witness. -/
def netPlain : network :=
  { Name := ("default"), type := ("dynamic"), CloudProperties := none
    IP := (""), Netmask := (""), Gateway := (""), DNS := [] }

theorem C3_sections_preserve_length_and_order_witness :
    (parseNetworkManifests [netPlain]).fst.length = 1 ∧
    (∃ y, parseOneNetwork netPlain = .ok y ∧
      (parseNetworkManifests [netPlain]).fst[0]? = some y ∧
      y.Name = netPlain.Name) ∧
    (∃ y, parseOneJob jobBare = .ok y ∧
      (parseJobManifests [jobBare]).fst[0]? = some y ∧
      y.Name = jobBare.Name) :=
  ⟨(C3_sections_preserve_length_and_order [netPlain] [] [] [jobBare]).1.1,
    (C3_sections_preserve_length_and_order [netPlain] [] [] [jobBare]).1.2
      rfl 0 netPlain rfl,
    (C3_sections_preserve_length_and_order [netPlain] [] [] [jobBare]).2.2.2.2
      rfl 0 jobBare rfl⟩

/-- C4: every failure (read, decode, any section, property normalization,
watch-time) makes the parse return the zero model together with the
error: no partially populated model is ever returned. -/
theorem C4_failure_returns_zero_model (readResult : Except Err String)
    (unmarshal : String → Except Err manifest) (dep : manifest) :
    ((Parse readResult unmarshal).snd.isSome →
      (Parse readResult unmarshal).fst = emptyManifest) ∧
    ((parseDeploymentManifest dep).snd.isSome →
      (parseDeploymentManifest dep).fst = emptyManifest) := by
  constructor
  · cases readResult with
    | error e => intro _; rfl
    | ok contents =>
      cases hu : unmarshal contents with
      | error e => intro _; simp [Parse, hu]
      | ok combo =>
        rcases hp : parseDeploymentManifest combo with ⟨m, eOpt⟩
        cases eOpt with
        | some e => intro _; simp [Parse, hu, hp]
        | none => intro hs; simp [Parse, hu, hp] at hs
  · rcases h1 : parseNetworkManifests dep.Networks with ⟨ns, e1⟩
    cases e1 with
    | some e => intro _; simp [parseDeploymentManifest, h1]
    | none =>
    rcases h2 : parseResourcePoolManifests dep.ResourcePools with ⟨rs, e2⟩
    cases e2 with
    | some e => intro _; simp [parseDeploymentManifest, h1, h2]
    | none =>
    rcases h3 : parseDiskPoolManifests dep.DiskPools with ⟨ds, e3⟩
    cases e3 with
    | some e => intro _; simp [parseDeploymentManifest, h1, h2, h3]
    | none =>
    rcases h4 : parseJobManifests dep.Jobs with ⟨js, e4⟩
    cases e4 with
    | some e => intro _; simp [parseDeploymentManifest, h1, h2, h3, h4]
    | none =>
    cases h5 : BuildMap dep.Properties with
    | error e => intro _; simp [parseDeploymentManifest, h1, h2, h3, h4, h5]
    | ok props =>
    cases h6 : dep.Update.UpdateWatchTime with
    | none => intro hs; simp [parseDeploymentManifest, h1, h2, h3, h4, h5, h6] at hs
    | some expr =>
      cases h7 : NewWatchTime expr with
      | error e => intro _; simp [parseDeploymentManifest, h1, h2, h3, h4, h5, h6, h7]
      | ok wt => intro hs; simp [parseDeploymentManifest, h1, h2, h3, h4, h5, h6, h7] at hs

/-- Concrete document whose watch-time expression is malformed, for the
C4 witness. -/
def depBadWatch : manifest :=
  { depNoUpdate with Update := { UpdateWatchTime := some ("abc") } }

theorem C4_failure_returns_zero_model_witness :
    (Parse (Except.error (Err.msg ("no such file")))
      (fun _ => Except.ok depNoUpdate)).fst = emptyManifest ∧
    (parseDeploymentManifest depBadWatch).fst = emptyManifest :=
  ⟨(C4_failure_returns_zero_model (Except.error (Err.msg ("no such file")))
      (fun _ => Except.ok depNoUpdate) depNoUpdate).1 rfl,
    (C4_failure_returns_zero_model (Except.error (Err.msg ("no such file")))
      (fun _ => Except.ok depNoUpdate) depBadWatch).2 rfl⟩

/-- Spec-side definition for C5, following the words of the spec: the
sections are consulted in the fixed order networks, resource pools, disk
pools, jobs, global properties, update-policy override, and the error
reported is the one from the earliest failing stage in that order. -/
def firstSectionError (dep : manifest) : Option Err :=
  match (parseNetworkManifests dep.Networks).snd with
  | some e => some (.wrap ("Parsing networks") e)
  | none =>
  match (parseResourcePoolManifests dep.ResourcePools).snd with
  | some e => some (.wrap ("Parsing resource_pools") e)
  | none =>
  match (parseDiskPoolManifests dep.DiskPools).snd with
  | some e => some (.wrap ("Parsing disk_pools") e)
  | none =>
  match (parseJobManifests dep.Jobs).snd with
  | some e => some (.wrap ("Parsing jobs") e)
  | none =>
  match BuildMap dep.Properties with
  | .error e => some (.wrap ("Parsing global manifest properties") e)
  | .ok _ =>
  match dep.Update.UpdateWatchTime with
  | none => none
  | some expr =>
    match NewWatchTime expr with
    | .error e => some (.wrap ("Parsing update watch time") e)
    | .ok _ => none

/-- C5: the orchestrator consults the sections in the fixed order
networks, resource pools, disk pools, jobs, global properties,
update-policy override; its reported error is always the error of the
earliest failing stage in that order (`firstSectionError`, written from
the spec). -/
theorem C5_fixed_section_order (dep : manifest) :
    (parseDeploymentManifest dep).snd = firstSectionError dep := by
  rcases h1 : parseNetworkManifests dep.Networks with ⟨ns, e1⟩
  cases e1 with
  | some e => simp [parseDeploymentManifest, firstSectionError, h1]
  | none =>
  rcases h2 : parseResourcePoolManifests dep.ResourcePools with ⟨rs, e2⟩
  cases e2 with
  | some e => simp [parseDeploymentManifest, firstSectionError, h1, h2]
  | none =>
  rcases h3 : parseDiskPoolManifests dep.DiskPools with ⟨ds, e3⟩
  cases e3 with
  | some e => simp [parseDeploymentManifest, firstSectionError, h1, h2, h3]
  | none =>
  rcases h4 : parseJobManifests dep.Jobs with ⟨js, e4⟩
  cases e4 with
  | some e => simp [parseDeploymentManifest, firstSectionError, h1, h2, h3, h4]
  | none =>
  cases h5 : BuildMap dep.Properties with
  | error e => simp [parseDeploymentManifest, firstSectionError, h1, h2, h3, h4, h5]
  | ok props =>
  cases h6 : dep.Update.UpdateWatchTime with
  | none => simp [parseDeploymentManifest, firstSectionError, h1, h2, h3, h4, h5, h6]
  | some expr =>
    cases h7 : NewWatchTime expr with
    | error e =>
      simp [parseDeploymentManifest, firstSectionError, h1, h2, h3, h4, h5, h6, h7]
    | ok wt =>
      simp [parseDeploymentManifest, firstSectionError, h1, h2, h3, h4, h5, h6, h7]

/-- Spec-side definition for C10: a resource-pool entry contributes an
error exactly when `BuildMap` fails on its `cloud_properties` or, failing
that, on its `env` block; no scalar field can contribute one. -/
def rpEntryError (r : resourcePool) : Option Err :=
  match BuildMap r.CloudProperties with
  | .error e => some (.wrap ("Parsing resource_pool " ++ r.Name ++ " cloud_properties") e)
  | .ok _ =>
    match BuildMap r.Env with
    | .error e => some (.wrap ("Parsing resource_pool " ++ r.Name ++ " env") e)
    | .ok _ => none

/-- Spec-side definition for C10: a disk-pool entry contributes an error
exactly when `BuildMap` fails on its `cloud_properties` block. -/
def dpEntryError (r : diskPool) : Option Err :=
  match BuildMap r.CloudProperties with
  | .error e => some (.wrap ("Parsing disk_pool " ++ r.Name ++ " cloud_properties") e)
  | .ok _ => none

theorem firstErr_congr (f g : α → Option Err) (h : ∀ x, f x = g x)
    (xs : List α) : firstErr f xs = firstErr g xs := by
  induction xs with
  | nil => rfl
  | cons x rest ih =>
    simp only [firstErr]
    rw [h x]
    cases g x with
    | some e => rfl
    | none => exact ih

theorem errOpt_parseOneResourcePool (r : resourcePool) :
    errOpt (parseOneResourcePool r) = rpEntryError r := by
  unfold errOpt parseOneResourcePool rpEntryError
  cases BuildMap r.CloudProperties with
  | error e => rfl
  | ok cp =>
    cases BuildMap r.Env with
    | error e => rfl
    | ok env => rfl

theorem errOpt_parseOneDiskPool (r : diskPool) :
    errOpt (parseOneDiskPool r) = dpEntryError r := by
  unfold errOpt parseOneDiskPool dpEntryError
  cases BuildMap r.CloudProperties with
  | error e => rfl
  | ok cp => rfl

theorem rpEntryError_eq_none (r : resourcePool) :
    rpEntryError r = none ↔
      errOpt (BuildMap r.CloudProperties) = none ∧
      errOpt (BuildMap r.Env) = none := by
  unfold rpEntryError errOpt
  cases BuildMap r.CloudProperties with
  | error e => simp
  | ok cp =>
    cases BuildMap r.Env with
    | error e => simp
    | ok env => simp

theorem dpEntryError_eq_none (r : diskPool) :
    dpEntryError r = none ↔ errOpt (BuildMap r.CloudProperties) = none := by
  unfold dpEntryError errOpt
  cases BuildMap r.CloudProperties with
  | error e => simp
  | ok cp => simp

theorem parseOneResourcePool_ok (r : resourcePool) (y : ResourcePool)
    (h : parseOneResourcePool r = .ok y) :
    ∃ cp env, BuildMap r.CloudProperties = .ok cp ∧ BuildMap r.Env = .ok env ∧
      y = { Name := r.Name, Network := r.Network
            CloudProperties := cp, Env := env } := by
  unfold parseOneResourcePool at h
  cases hb : BuildMap r.CloudProperties with
  | error e => rw [hb] at h; simp at h
  | ok cp =>
    rw [hb] at h
    cases he : BuildMap r.Env with
    | error e => rw [he] at h; simp at h
    | ok env =>
      rw [he] at h
      simp at h
      exact ⟨cp, env, rfl, rfl, h.symm⟩

theorem parseOneDiskPool_ok (r : diskPool) (y : DiskPool)
    (h : parseOneDiskPool r = .ok y) :
    ∃ cp, BuildMap r.CloudProperties = .ok cp ∧
      y = { Name := r.Name, DiskSize := r.DiskSize, CloudProperties := cp } := by
  unfold parseOneDiskPool at h
  cases hb : BuildMap r.CloudProperties with
  | error e => rw [hb] at h; simp at h
  | ok cp =>
    rw [hb] at h
    simp at h
    exact ⟨cp, rfl, h.symm⟩

/-- C10: resource-pool and disk-pool parsing fail exactly when `BuildMap`
fails on some entry's `cloud_properties` or `env` block, the first such
entry in order determining the error; every scalar field is copied
verbatim without validation (in particular an empty name, an empty
network reference, and a zero or negative disk size are accepted). -/
theorem C10_pool_errors_are_buildmap_errors
    (rps : List resourcePool) (dps : List diskPool) :
    ((parseResourcePoolManifests rps).snd = firstErr rpEntryError rps) ∧
    ((parseDiskPoolManifests dps).snd = firstErr dpEntryError dps) ∧
    ((parseResourcePoolManifests rps).snd = none ↔
      ∀ r ∈ rps, errOpt (BuildMap r.CloudProperties) = none ∧
        errOpt (BuildMap r.Env) = none) ∧
    ((parseDiskPoolManifests dps).snd = none ↔
      ∀ r ∈ dps, errOpt (BuildMap r.CloudProperties) = none) ∧
    ((parseResourcePoolManifests rps).snd = none →
      ∀ (i : Nat) (r : resourcePool), rps[i]? = some r →
        ∃ cp env, BuildMap r.CloudProperties = .ok cp ∧
          BuildMap r.Env = .ok env ∧
          (parseResourcePoolManifests rps).fst[i]? =
            some { Name := r.Name, Network := r.Network
                   CloudProperties := cp, Env := env }) ∧
    ((parseDiskPoolManifests dps).snd = none →
      ∀ (i : Nat) (r : diskPool), dps[i]? = some r →
        ∃ cp, BuildMap r.CloudProperties = .ok cp ∧
          (parseDiskPoolManifests dps).fst[i]? =
            some { Name := r.Name, DiskSize := r.DiskSize
                   CloudProperties := cp }) := by
  simp only [parseResourcePoolManifests, parseDiskPoolManifests]
  have hrp : (runSection parseOneResourcePool emptyResourcePool rps).snd =
      firstErr rpEntryError rps := by
    rw [runSection_snd]
    exact firstErr_congr _ _ errOpt_parseOneResourcePool rps
  have hdp : (runSection parseOneDiskPool emptyDiskPool dps).snd =
      firstErr dpEntryError dps := by
    rw [runSection_snd]
    exact firstErr_congr _ _ errOpt_parseOneDiskPool dps
  refine ⟨hrp, hdp, ?_, ?_, ?_, ?_⟩
  · rw [hrp, firstErr_eq_none_iff]
    constructor
    · intro h r hr; exact (rpEntryError_eq_none r).mp (h r hr)
    · intro h r hr; exact (rpEntryError_eq_none r).mpr (h r hr)
  · rw [hdp, firstErr_eq_none_iff]
    constructor
    · intro h r hr; exact (dpEntryError_eq_none r).mp (h r hr)
    · intro h r hr; exact (dpEntryError_eq_none r).mpr (h r hr)
  · intro hok i r hr
    rcases runSection_get? _ _ _ hok i r hr with ⟨y, hy, hget⟩
    rcases parseOneResourcePool_ok r y hy with ⟨cp, env, hcp, henv, hyeq⟩
    exact ⟨cp, env, hcp, henv, by rw [hget, hyeq]⟩
  · intro hok i r hr
    rcases runSection_get? _ _ _ hok i r hr with ⟨y, hy, hget⟩
    rcases parseOneDiskPool_ok r y hy with ⟨cp, hcp, hyeq⟩
    exact ⟨cp, hcp, by rw [hget, hyeq]⟩

/-- Concrete resource pool with empty name and empty network reference. -/
def rpPermissive : resourcePool :=
  { Name := (""), Network := (""), CloudProperties := none, Env := none }

/-- Concrete disk pool with an empty name and a negative disk size. -/
def dpPermissive : diskPool :=
  { Name := (""), DiskSize := -5, CloudProperties := none }

theorem C10_pool_errors_are_buildmap_errors_witness :
    (∃ cp env, BuildMap rpPermissive.CloudProperties = .ok cp ∧
      BuildMap rpPermissive.Env = .ok env ∧
      (parseResourcePoolManifests [rpPermissive]).fst[0]? =
        some { Name := rpPermissive.Name, Network := rpPermissive.Network
               CloudProperties := cp, Env := env }) ∧
    (∃ cp, BuildMap dpPermissive.CloudProperties = .ok cp ∧
      (parseDiskPoolManifests [dpPermissive]).fst[0]? =
        some { Name := dpPermissive.Name, DiskSize := dpPermissive.DiskSize
               CloudProperties := cp }) :=
  ⟨(C10_pool_errors_are_buildmap_errors [rpPermissive] [dpPermissive]).2.2.2.2.1
      rfl 0 rpPermissive rfl,
    (C10_pool_errors_are_buildmap_errors [rpPermissive] [dpPermissive]).2.2.2.2.2
      rfl 0 dpPermissive rfl⟩

end BoshManifest
